import Mathlib

/-!
Verification of the stream-lifecycle coordinator, resilience executor,
error handler and monitoring registry of the Adorable repository, via a
shallow embedding of the TypeScript source into Lean.

Conventions of the embedding:
* The Redis store is an association list from key to value; `set` replaces
  the binding, `del` filters it out (TTL expiry is not modelled; no claim
  here depends on a token expiring on its own).
* JavaScript `Date.now()` timestamps are passed explicitly as `Int` values.
* A JavaScript `Error` is modelled by its message `String`; a thrown
  non-`Error` value is `Option.none` where the distinction matters.
* Callbacks (`onError`, `onFinish`) become explicit state-transforming
  functions; the effects the coordinator performs (publishing an abort
  signal, deleting the liveness token, polling for a stop, force cleanup)
  are recorded in an explicit trace.
-/

/-- Membership of `sub` as a contiguous run of `l`. -/
def containsSub (sub : List Char) : List Char → Bool
  | [] => sub.isEmpty
  | a :: as => List.isPrefixOf sub (a :: as) || containsSub sub as

/-- JavaScript `String.prototype.includes`: substring containment. -/
def includesStr (s sub : String) : Bool :=
  containsSub sub.toList s.toList

/-- The shared store: association list from key to string value. -/
abbrev Store : Type := List (String × String)

/-- `redis.set key value` (any TTL option ignored): replace the binding. -/
def storeSet (store : Store) (k v : String) : Store :=
  (k, v) :: List.filter (fun kv => !(kv.1 == k)) store

/-- `redis.del key`: drop the binding. -/
def storeDel (store : Store) (k : String) : Store :=
  List.filter (fun kv => !(kv.1 == k)) store

/-- `redis.get key`: `none` models a `null` reply. -/
def storeGet (store : Store) (k : String) : Option String :=
  (List.find? (fun kv => kv.1 == k) store).map (fun kv => kv.2)

/-- Entry of the `streamHealth` map (part_001 lines 220-223). -/
structure StreamHealthRec where
  lastActivity : Int
  startTime : Int
  messageCount : Nat
deriving DecidableEq

/-- Process-local plus store-side state touched by the stream manager:
the Redis store, the `streamHealth` map and the `activeStreams` set.
`activeStreams` is kept as a list in insertion order, mirroring the
iteration order of a JavaScript `Set`. -/
structure SMState where
  store : Store
  streamHealth : List (String × StreamHealthRec)
  activeStreams : List String
deriving DecidableEq

/-- The key `app:${appId}:stream-state` holding the liveness token. -/
def streamStateKey (appId : String) : String :=
  "app:" ++ appId ++ ":stream-state"

/-- `getStreamState`: read the liveness token. -/
def getStreamState (σ : SMState) (appId : String) : Option String :=
  storeGet σ.store (streamStateKey appId)

/-- `isStreamRunning`: token reads exactly `"running"`. -/
def isStreamRunning (σ : SMState) (appId : String) : Bool :=
  getStreamState σ appId == some "running"

/-- `clearStreamState`: unconditionally delete the liveness token. -/
def clearStreamState (σ : SMState) (appId : String) : SMState :=
  { σ with store := storeDel σ.store (streamStateKey appId) }

/-- `updateKeepAlive`: (re)set the token to `"running"` (EX 15 ignored). -/
def updateKeepAlive (σ : SMState) (appId : String) : SMState :=
  { σ with store := storeSet σ.store (streamStateKey appId) "running" }

/-- `streamHealth.delete(appId)`. -/
def healthDelete (σ : SMState) (appId : String) : SMState :=
  { σ with streamHealth := List.filter (fun kv => !(kv.1 == appId)) σ.streamHealth }

/-- `streamHealth.set(appId, h)`. -/
def healthSet (σ : SMState) (appId : String) (h : StreamHealthRec) : SMState :=
  { σ with streamHealth :=
      (appId, h) :: List.filter (fun kv => !(kv.1 == appId)) σ.streamHealth }

/-- `streamHealth.get(appId)`. -/
def healthGet (σ : SMState) (appId : String) : Option StreamHealthRec :=
  (List.find? (fun kv => kv.1 == appId) σ.streamHealth).map (fun kv => kv.2)

/-- `MAX_CONCURRENT_STREAMS`. -/
def MAX_CONCURRENT_STREAMS : Nat := 10

/-- `canStartNewStream`: pool below capacity. -/
def canStartNewStream (σ : SMState) : Bool :=
  σ.activeStreams.length < MAX_CONCURRENT_STREAMS

/-- `activeStreams.add(appId)`: a JS `Set.add` keeps the original position
of an element that is already present and appends a new one. -/
def activeStreamsAdd (l : List String) (appId : String) : List String :=
  if l.contains appId then l else l ++ [appId]

/-- `reserveStreamSlot`: add to the pool only below capacity; report
whether the reservation succeeded. -/
def reserveStreamSlot (σ : SMState) (appId : String) : Bool × SMState :=
  if canStartNewStream σ then
    (true, { σ with activeStreams := activeStreamsAdd σ.activeStreams appId })
  else
    (false, σ)

/-- `releaseStreamSlot`: `activeStreams.delete(appId)`. -/
def releaseStreamSlot (σ : SMState) (appId : String) : SMState :=
  { σ with activeStreams := List.filter (fun a => !(a == appId)) σ.activeStreams }

/-- `forceCleanupStream`: clear the token, drop the health record, release
the slot and delete the three auxiliary keys; all internal errors are
swallowed by the source, so the model is total. -/
def forceCleanupStream (σ : SMState) (appId : String) : SMState :=
  let σ1 := clearStreamState σ appId
  let σ2 := healthDelete σ1 appId
  let σ3 := releaseStreamSlot σ2 appId
  let s1 := storeDel σ3.store ("stream:" ++ appId)
  let s2 := storeDel s1 ("stream:" ++ appId ++ ":keepalive")
  let s3 := storeDel s2 ("stream:" ++ appId ++ ":events")
  { σ3 with store := s3 }

/-- `STREAM_TIMEOUT` = 5 minutes in milliseconds. -/
def STREAM_TIMEOUT : Int := 5 * 60 * 1000

/-- `MAX_STREAM_AGE`: the literal `10 * 60 * 1000` used at part_001 lines
242 and 292 for the 10-minute age bound. -/
def MAX_STREAM_AGE : Int := 10 * 60 * 1000

/-- `isStreamHealthy`: a missing health record reads unhealthy; otherwise
recent activity (strictly within `STREAM_TIMEOUT`) and age strictly under
ten minutes. -/
def isStreamHealthy (σ : SMState) (appId : String) (now : Int) : Bool :=
  match healthGet σ appId with
  | none => false
  | some h =>
      (now - h.lastActivity < STREAM_TIMEOUT) && (now - h.startTime < MAX_STREAM_AGE)

/-- Observable actions the coordinator performs against the store and its
local registries, recorded as a trace. -/
inductive Effect where
  | publishAbort (appId : String)
  | delToken (appId : String)
  | waitForStop (appId : String) (maxAttempts : Nat)
  | forcedCleanup (appId : String)
deriving DecidableEq

/-- `stopStream`: publish `abort-stream` on the session channel, then
delete the liveness token. -/
def stopStream (σ : SMState) (appId : String) : SMState × List Effect :=
  (clearStreamState σ appId, [Effect.publishAbort appId, Effect.delToken appId])

/-- `waitForStreamToStop`: poll the token once per second up to
`maxAttempts` times (default 60). The model is sequential, so the store
does not change between polls. -/
def waitForStreamToStop (σ : SMState) (appId : String) : Nat → Bool
  | 0 => false
  | n + 1 =>
      if getStreamState σ appId == none then true
      else waitForStreamToStop σ appId n

/-- `ensureSingleStream`: reconcile a session that already shows `running`
(graceful stop and wait when locally healthy, immediate force cleanup
otherwise), then clear stale state and initialise health tracking. -/
def ensureSingleStream (σ : SMState) (appId : String) (now : Int) :
    SMState × List Effect :=
  let step :=
    if isStreamRunning σ appId then
      if isStreamHealthy σ appId now then
        let s := stopStream σ appId
        (s.1, s.2 ++ [Effect.waitForStop appId 60])
      else
        (forceCleanupStream σ appId, [Effect.forcedCleanup appId])
    else (σ, [])
  let σ2 := clearStreamState step.1 appId
  let σ3 := healthSet σ2 appId ⟨now, now, 0⟩
  (σ3, step.2)

/-- `onError` hook of `sendMessageWithStreaming`: lifecycle `error`
(clearing the liveness token), drop the health record, release the slot;
the `fallbackToMemory` flag is set by the caller. -/
def onErrorHandler (σ : SMState) (appId : String) : SMState :=
  releaseStreamSlot (healthDelete (clearStreamState σ appId) appId) appId

/-- `onFinish` hook: lifecycle `finish` (clearing the token), drop the
health record, release the slot. -/
def onFinishHandler (σ : SMState) (appId : String) : SMState :=
  releaseStreamSlot (healthDelete (clearStreamState σ appId) appId) appId

/-- The pool-relief step of `sendMessageWithStreaming`: when the pool is
full, force-cleanup the first two entries of the `activeStreams` set in
iteration (= insertion) order. -/
def poolRelief (σ : SMState) : SMState :=
  if canStartNewStream σ then σ
  else (σ.activeStreams.take 2).foldl forceCleanupStream σ

/-- Result of one `sendMessageWithStreaming` call in the model. -/
structure StartOutcome where
  state : SMState
  producerInvoked : Bool
  error : Option String
  fallbackRan : Bool
deriving DecidableEq

/-- The capacity error thrown when slot reservation fails. -/
def capacityError : String :=
  "Unable to reserve stream slot - connection pool exhausted"

/-- `sendMessageWithStreaming`, sequential model: pool relief when full,
slot reservation (throwing `capacityError` on failure, before the producer
is ever invoked), reconciliation via `ensureSingleStream`, then the
producer; a producer failure runs the `onError` teardown and falls through
to the memory fallback, a success sets the resumable stream token. -/
def startSessionStep (σ : SMState) (appId : String) (now : Int)
    (producerFails : Bool) : StartOutcome :=
  let σ1 := poolRelief σ
  let res := reserveStreamSlot σ1 appId
  if res.1 then
    let σ2 := (ensureSingleStream res.2 appId now).1
    if producerFails then
      { state := onErrorHandler σ2 appId, producerInvoked := true,
        error := none, fallbackRan := true }
    else
      { state := updateKeepAlive σ2 appId, producerInvoked := true,
        error := none, fallbackRan := false }
  else
    { state := res.2, producerInvoked := false,
      error := some capacityError, fallbackRan := false }

/-- Operations that touch the stream manager's state, for invariant
reasoning over arbitrary interleavings. -/
inductive SMOp where
  | start (appId : String) (now : Int) (producerFails : Bool)
  | finish (appId : String)
  | cleanup (appId : String)
  | stop (appId : String)
  | clear (appId : String)

/-- Apply one operation. -/
def applySMOp (σ : SMState) : SMOp → SMState
  | SMOp.start appId now producerFails => (startSessionStep σ appId now producerFails).state
  | SMOp.finish appId => onFinishHandler σ appId
  | SMOp.cleanup appId => forceCleanupStream σ appId
  | SMOp.stop appId => (stopStream σ appId).1
  | SMOp.clear appId => clearStreamState σ appId

/-- Run a list of operations from a state. -/
def runSMOps (σ : SMState) (ops : List SMOp) : SMState :=
  ops.foldl applySMOp σ

/-- The state at process start: empty store, no health records, empty pool. -/
def initSMState : SMState := ⟨[], [], []⟩

/-! ## Resilience executor (part_004) -/

/-- `RetryOptions`. -/
structure RetryOptions where
  maxAttempts : Nat
  baseDelay : Nat
  maxDelay : Nat
  backoffMultiplier : Nat
deriving DecidableEq

/-- `defaultRetryOptions`. -/
def defaultRetryOptions : RetryOptions :=
  { maxAttempts := 3, baseDelay := 1000, maxDelay := 10000, backoffMultiplier := 2 }

/-- `CircuitBreakerOptions`. -/
structure CircuitBreakerOptions where
  failureThreshold : Nat
  recoveryTimeout : Int
  monitoringWindow : Int
deriving DecidableEq

/-- `defaultCircuitBreakerOptions`. -/
def defaultCircuitBreakerOptions : CircuitBreakerOptions :=
  { failureThreshold := 5, recoveryTimeout := 30000, monitoringWindow := 60000 }

/-- `CircuitBreakerState`; the `state` field holds `"closed"`, `"open"` or
`"half-open"` exactly as the source's string union type does. -/
structure CircuitBreakerState where
  state : String
  failureCount : Nat
  lastFailureTime : Int
deriving DecidableEq

/-- A freshly created breaker (`getOrCreateCircuitBreaker`). -/
def freshCircuitBreaker : CircuitBreakerState :=
  { state := "closed", failureCount := 0, lastFailureTime := 0 }

/-- The retryable substrings of `Resilience.isRetryableError`. -/
def retryableErrors : List String :=
  ["ECONNRESET", "ETIMEDOUT", "ENOTFOUND", "ECONNREFUSED",
   "NETWORK_ERROR", "TIMEOUT", "RATE_LIMIT", "SERVICE_UNAVAILABLE"]

/-- `Resilience.isRetryableError` on an `Error` with message `msg`. -/
def isRetryableError (msg : String) : Bool :=
  retryableErrors.any (fun t => includesStr msg t)

/-- `calculateBackoffDelay`: exponential backoff capped at `maxDelay`. -/
def calculateBackoffDelay (attempt : Nat) (config : RetryOptions) : Nat :=
  min (config.baseDelay * config.backoffMultiplier ^ (attempt - 1)) config.maxDelay

/-- Result of a `withRetry` run: final outcome, the sleep delays performed
between attempts, and how many attempts were made. -/
structure RetryResult (α : Type) where
  result : Except String α
  delays : List Nat
  attemptsMade : Nat

/-- The `for attempt in 1..maxAttempts` loop of `withRetry`; `op k` is the
outcome of the k-th invocation of the operation (1-indexed), `remaining`
the attempts still allowed including the current one. -/
def retryFrom (op : Nat → Except String α) (config : RetryOptions) :
    Nat → Nat → RetryResult α
  | _, 0 => { result := Except.error "", delays := [], attemptsMade := 0 }
  | attempt, r + 1 =>
      match op attempt with
      | Except.ok a => { result := Except.ok a, delays := [], attemptsMade := 1 }
      | Except.error e =>
          if r = 0 then
            { result := Except.error e, delays := [], attemptsMade := 1 }
          else if !isRetryableError e then
            { result := Except.error e, delays := [], attemptsMade := 1 }
          else
            let d := calculateBackoffDelay attempt config
            let rest := retryFrom op config (attempt + 1) r
            { result := rest.result, delays := d :: rest.delays,
              attemptsMade := rest.attemptsMade + 1 }

/-- `Resilience.withRetry` with outcomes supplied per attempt. -/
def withRetry (op : Nat → Except String α) (config : RetryOptions) : RetryResult α :=
  retryFrom op config 1 config.maxAttempts

/-- Result of a `withCircuitBreaker` call: updated breaker, outcome seen
by the caller, the breaker state under which the operation was invoked
(`none` when the call was rejected without invoking it), and how many
failures the breaker recorded during the call. -/
structure CBOutcome (α : Type) where
  breaker : CircuitBreakerState
  result : Except String α
  invokedUnder : Option CircuitBreakerState
  recordedFailures : Nat

/-- The circuit-open error message. -/
def circuitOpenMessage (context : String) : String :=
  "Circuit breaker is open for " ++ context ++ ". Please try again later."

/-- The try/catch body of `withCircuitBreaker` once the operation is
invoked: success closes a half-open breaker; failure increments the
counter, stamps the time and opens the breaker at the threshold. -/
def recordCBOutcome (cb : CircuitBreakerState) (config : CircuitBreakerOptions)
    (now : Int) (opResult : Except String α) : CBOutcome α :=
  match opResult with
  | Except.ok a =>
      let cb2 := if cb.state == "half-open" then
        { cb with state := "closed", failureCount := 0 } else cb
      { breaker := cb2, result := Except.ok a, invokedUnder := some cb,
        recordedFailures := 0 }
  | Except.error e =>
      let fc := cb.failureCount + 1
      let st := if fc ≥ config.failureThreshold then "open" else cb.state
      { breaker := { state := st, failureCount := fc, lastFailureTime := now },
        result := Except.error e, invokedUnder := some cb, recordedFailures := 1 }

/-- `Resilience.withCircuitBreaker`: reject while open and inside the
recovery window; probe half-open after it; otherwise invoke. -/
def withCircuitBreaker (cb : CircuitBreakerState) (config : CircuitBreakerOptions)
    (now : Int) (context : String) (opResult : Except String α) : CBOutcome α :=
  if cb.state == "open" then
    if now - cb.lastFailureTime < config.recoveryTimeout then
      { breaker := cb, result := Except.error (circuitOpenMessage context),
        invokedUnder := none, recordedFailures := 0 }
    else
      recordCBOutcome { cb with state := "half-open", failureCount := 0 }
        config now opResult
  else
    recordCBOutcome cb config now opResult

/-- `Resilience.withResilience`: the circuit breaker wrapped around the
whole retry loop, so the breaker sees a single outcome per call. -/
def withResilience (cb : CircuitBreakerState) (now : Int) (context : String)
    (op : Nat → Except String α) (retryConfig : RetryOptions)
    (cbConfig : CircuitBreakerOptions) : CBOutcome α :=
  withCircuitBreaker cb cbConfig now context (withRetry op retryConfig).result

/-! ## Error handler (part_003) -/

/-- `ErrorHandler.getErrorMessage`: the thrown value is `some msg` for an
`Error` with message `msg`, `none` for a non-`Error` value. -/
def getErrorMessage : Option String → String
  | some msg =>
      if includesStr msg "ECONN" || includesStr msg "ENOTFOUND" then
        "Connection issue. Please try again."
      else if includesStr msg "timeout" then
        "Request timed out. Please try again."
      else msg
  | none => "An unexpected error occurred. Please try again."

/-! ## Monitoring registry (part_002) -/

/-- The `performance` block of `SystemMetrics`. Ratios are exact
rationals; the source computes them on JavaScript numbers. -/
structure PerfMetrics where
  averageResponseTime : ℚ
  totalRequests : Nat
  successfulRequests : Nat
  failedRequests : Nat
  successRate : ℚ
deriving DecidableEq

/-- A recorded error entry (`timestamp`, `context`, `message`). -/
structure ErrorEntry where
  timestamp : Int
  context : String
  message : String
deriving DecidableEq

/-- The mutable state of the `Monitoring` class. -/
structure MonState where
  performance : PerfMetrics
  errorsRecent : List ErrorEntry
  errorsCount : Nat
  requestTimes : List ℚ
deriving DecidableEq

/-- The initial metrics (also what `resetMetrics` restores). -/
def initMonState : MonState :=
  { performance :=
      { averageResponseTime := 0, totalRequests := 0, successfulRequests := 0,
        failedRequests := 0, successRate := 100 },
    errorsRecent := [], errorsCount := 0, requestTimes := [] }

/-- `MAX_ERRORS`. -/
def MAX_ERRORS : Nat := 100

/-- `MAX_REQUEST_TIMES`. -/
def MAX_REQUEST_TIMES : Nat := 1000

/-- `updateSuccessRate`: only rewrites the rate when requests exist. -/
def updateSuccessRate (p : PerfMetrics) : PerfMetrics :=
  if p.totalRequests > 0 then
    { p with successRate :=
        ((p.successfulRequests : ℚ) / (p.totalRequests : ℚ)) * 100 }
  else p

/-- `recordRequestTime`: push, keep the last `MAX_REQUEST_TIMES` samples,
refresh the running average. -/
def recordRequestTime (s : MonState) (duration : ℚ) : MonState :=
  let ts0 := s.requestTimes ++ [duration]
  let ts := if ts0.length > MAX_REQUEST_TIMES then
    ts0.drop (ts0.length - MAX_REQUEST_TIMES) else ts0
  let avg := ts.foldl (fun acc t => acc + t) 0 / (ts.length : ℚ)
  { s with
    requestTimes := ts
    performance := { s.performance with averageResponseTime := avg } }

/-- `recordError`: unshift the entry, bump the count, keep `MAX_ERRORS`. -/
def recordMonError (s : MonState) (now : Int) (context error : String) : MonState :=
  let recent := (ErrorEntry.mk now context error) :: s.errorsRecent
  { s with errorsRecent := recent.take MAX_ERRORS, errorsCount := s.errorsCount + 1 }

/-- `Monitoring.recordSuccess`. -/
def recordSuccess (s : MonState) (duration : ℚ) : MonState :=
  let p := { s.performance with
    totalRequests := s.performance.totalRequests + 1,
    successfulRequests := s.performance.successfulRequests + 1 }
  recordRequestTime { s with performance := updateSuccessRate p } duration

/-- `Monitoring.recordFailure`. -/
def recordFailure (s : MonState) (duration : ℚ) (now : Int)
    (context error : String) : MonState :=
  let p := { s.performance with
    totalRequests := s.performance.totalRequests + 1,
    failedRequests := s.performance.failedRequests + 1 }
  recordMonError (recordRequestTime { s with performance := updateSuccessRate p } duration)
    now context error

/-- One call into the monitoring registry. -/
inductive MonEvent where
  | success (duration : ℚ)
  | failure (duration : ℚ) (now : Int) (context error : String)

/-- Apply one monitoring event. -/
def applyMonEvent (s : MonState) : MonEvent → MonState
  | MonEvent.success d => recordSuccess s d
  | MonEvent.failure d now c e => recordFailure s d now c e

/-- Run a sequence of monitoring events from a state. -/
def runMonEvents (s : MonState) (events : List MonEvent) : MonState :=
  events.foldl applyMonEvent s

/-! ## ChatService entry point (part_005), monitoring flow -/

/-- `ChatService.processChatRequest`, restricted to what it reports to the
monitoring registry: a streaming call that resolves (including one that
resolved via `sendMessageWithStreaming`'s internal memory fallback)
records a success; a streaming error followed by a successful
`handleStreamingFallback` also records a success; only when that fallback
throws as well does the outer catch record a failure. -/
def processChatMonitoring (m : MonState) (duration : ℚ) (now : Int)
    (streamingResult : Except String Unit) (fallbackResult : Except String Unit) :
    MonState :=
  match streamingResult with
  | Except.ok _ => recordSuccess m duration
  | Except.error _ =>
      match fallbackResult with
      | Except.ok _ => recordSuccess m duration
      | Except.error e => recordFailure m duration now "chat-processing" e

/-- `sendMessageWithStreaming`'s result as the `"streaming"` resilience
context observes it: a producer failure whose memory fallback succeeds
resolves normally (the fallback response is returned), so the promise
rejects only when the fallback also fails. -/
def streamingOutcome (producerFails fallbackFails : Bool) : Except String Unit :=
  if producerFails then
    if fallbackFails then
      Except.error "Failed to process message and fallback failed"
    else Except.ok ()
  else Except.ok ()

/-! ## Helper lemmas -/

theorem filter_self_idem (p : α → Bool) (l : List α) :
    (l.filter p).filter p = l.filter p := by
  rw [List.filter_filter]
  apply List.filter_congr
  intro a _
  simp

theorem storeDel_idem (l : Store) (k : String) :
    storeDel (storeDel l k) k = storeDel l k :=
  filter_self_idem _ l

theorem find?_filter_not_key (l : List (String × β)) (k : String) :
    List.find? (fun kv => kv.1 == k) (List.filter (fun kv => !(kv.1 == k)) l) = none := by
  induction l with
  | nil => rfl
  | cons a as ih =>
      by_cases h : a.1 == k
      · simp [List.filter, h, ih]
      · simp only [List.filter, h]
        simp only [Bool.not_false, List.find?]
        simp [h, ih]

theorem storeGet_storeDel (l : Store) (k : String) :
    storeGet (storeDel l k) k = none := by
  simp [storeGet, storeDel, find?_filter_not_key]

theorem bool_dup4 (a b c d : Bool) :
    (a && (b && (c && (d && (a && (b && (c && d))))))) = (a && (b && (c && d))) := by
  cases a <;> cases b <;> cases c <;> cases d <;> rfl

/-! ## C9: idempotence of cleanup -/

/-- C9: for every session id and starting state, `clearStreamState` twice
in a row gives the same observable state as once, and likewise
`forceCleanupStream` twice gives the same state as once. -/
theorem claim_cleanup_idempotent (σ : SMState) (appId : String) :
    clearStreamState (clearStreamState σ appId) appId = clearStreamState σ appId ∧
    forceCleanupStream (forceCleanupStream σ appId) appId = forceCleanupStream σ appId := by
  constructor
  · simp [clearStreamState, storeDel_idem]
  · simp only [forceCleanupStream, clearStreamState, healthDelete, releaseStreamSlot,
      storeDel, List.filter_filter, SMState.mk.injEq]
    refine ⟨?_, ?_, ?_⟩
    · apply List.filter_congr
      intro a _
      exact bool_dup4 _ _ _ _
    · apply List.filter_congr
      intro a _
      exact Bool.and_self _
    · apply List.filter_congr
      intro a _
      exact Bool.and_self _

/-! ## C8: curated error propagation -/

/-- C8 counterexample: an `Error` whose message contains none of the
curated substrings has its raw message returned verbatim by
`getErrorMessage`, so raw internal error detail does reach the caller. -/
theorem claim_error_curation_cex :
    getErrorMessage (some "internal secret detail") = "internal secret detail" := by
  decide

/-- C8 as amended: errors whose message contains `ECONN` or `ENOTFOUND`
yield the curated connection message; otherwise a message containing the
(lowercase) substring `timeout` yields the curated timeout message; any
other `Error` has its own message returned verbatim, and a non-`Error`
value yields the generic message. -/
theorem claim_error_curation_amended (msg : Option String) :
    (∀ s, msg = some s → (includesStr s "ECONN" || includesStr s "ENOTFOUND") = true →
      getErrorMessage msg = "Connection issue. Please try again.") ∧
    (∀ s, msg = some s → (includesStr s "ECONN" || includesStr s "ENOTFOUND") = false →
      includesStr s "timeout" = true →
      getErrorMessage msg = "Request timed out. Please try again.") ∧
    (∀ s, msg = some s → (includesStr s "ECONN" || includesStr s "ENOTFOUND") = false →
      includesStr s "timeout" = false → getErrorMessage msg = s) ∧
    (msg = none → getErrorMessage msg = "An unexpected error occurred. Please try again.") := by
  refine ⟨?_, ?_, ?_, ?_⟩
  · rintro s rfl h
    simp [getErrorMessage, h]
  · rintro s rfl h ht
    simp [getErrorMessage, h, ht]
  · rintro s rfl h ht
    simp [getErrorMessage, h, ht]
  · rintro rfl
    rfl

/-- Witness for the amended C8 at concrete inputs. -/
theorem claim_error_curation_amended_witness :
    getErrorMessage (some "ECONNRESET by peer") = "Connection issue. Please try again." :=
  (claim_error_curation_amended (some "ECONNRESET by peer")).1 "ECONNRESET by peer" rfl (by decide)

/-! ## C7: retry backoff schedule -/

theorem retryFrom_delays_of_fail (e : String) (he : isRetryableError e = true)
    (config : RetryOptions) :
    ∀ (r a : Nat),
      (retryFrom (fun _ => (Except.error e : Except String Unit)) config a (r + 1)).delays
        = (List.range r).map (fun i => calculateBackoffDelay (a + i) config) := by
  intro r
  induction r with
  | zero => intro a; rfl
  | succ n ih =>
      intro a
      have step : (retryFrom (fun _ => (Except.error e : Except String Unit)) config a (n + 1 + 1)).delays
          = calculateBackoffDelay a config
              :: (retryFrom (fun _ => (Except.error e : Except String Unit)) config (a + 1) (n + 1)).delays := by
        simp [retryFrom, he]
      rw [step, ih (a + 1), List.range_succ_eq_map, List.map_cons, List.map_map]
      refine congrArg₂ List.cons ?_ ?_
      · rw [Nat.add_zero]
      · have hfun : ((fun i => calculateBackoffDelay (a + i) config) ∘ Nat.succ)
            = fun i => calculateBackoffDelay (a + 1 + i) config := by
          funext i
          have hi : a + Nat.succ i = a + 1 + i := by omega
          simp only [Function.comp]
          rw [hi]
        rw [hfun]

/-- C7: with the default options (base 1000ms, multiplier 2, cap 10000ms)
the delay slept before the (k+1)-st retry (0-indexed k) is
`min (1000 * 2 ^ k) 10000`, and a run of retryable failures produces the
capped schedule 1000, 2000, 4000, 8000, 10000, 10000, ... -/
theorem claim_retry_backoff :
    (∀ k : Nat, calculateBackoffDelay (k + 1) defaultRetryOptions = min (1000 * 2 ^ k) 10000) ∧
    (∀ (n k : Nat) (e : String), isRetryableError e = true →
      ((withRetry (fun _ => (Except.error e : Except String Unit))
          { defaultRetryOptions with maxAttempts := n + 1 }).delays)[k]?
        = if k < n then some (min (1000 * 2 ^ k) 10000) else none) ∧
    (withRetry (fun _ => (Except.error "ETIMEDOUT" : Except String Unit))
        { defaultRetryOptions with maxAttempts := 7 }).delays
      = [1000, 2000, 4000, 8000, 10000, 10000] := by
  refine ⟨?_, ?_, ?_⟩
  · intro k
    simp [calculateBackoffDelay, defaultRetryOptions]
  · intro n k e he
    have hd := retryFrom_delays_of_fail e he { defaultRetryOptions with maxAttempts := n + 1 } n 1
    simp only [withRetry] at hd ⊢
    rw [hd, List.getElem?_map]
    by_cases hk : k < n
    · rw [List.getElem?_range hk]
      have h1 : 1 + k - 1 = k := by omega
      simp [hk, calculateBackoffDelay, defaultRetryOptions, h1]
    · rw [List.getElem?_eq_none]
      · simp [hk]
      · simpa using hk
  · decide

/-- Witness for C7 at a concrete schedule position. -/
theorem claim_retry_backoff_witness :
    ((withRetry (fun _ => (Except.error "ETIMEDOUT" : Except String Unit))
        { defaultRetryOptions with maxAttempts := 6 + 1 }).delays)[3]?
      = if 3 < 6 then some (min (1000 * 2 ^ 3) 10000) else none :=
  claim_retry_backoff.2.1 6 3 "ETIMEDOUT" (by decide)

/-! ## C4: circuit breaker open behaviour -/

/-- C4: from a fresh breaker, five consecutive recorded failures open the
circuit; any call while open within `recoveryTimeout` of the last failure
is rejected with the circuit-open error without the operation being
invoked and leaves the breaker untouched; the first call after the
timeout is attempted with the breaker transitioned to half-open. -/
theorem claim_breaker_open :
    (∀ (ctx : String) (t1 t2 t3 t4 t5 : Int),
      ([t1, t2, t3, t4, t5].foldl
        (fun cb t => (withCircuitBreaker cb defaultCircuitBreakerOptions t ctx
          (Except.error "boom" : Except String Unit)).breaker) freshCircuitBreaker).state
        = "open") ∧
    (∀ (ctx : String) (cb : CircuitBreakerState) (now : Int) (r : Except String Unit),
      cb.state = "open" → now - cb.lastFailureTime < 30000 →
        withCircuitBreaker cb defaultCircuitBreakerOptions now ctx r
          = ⟨cb, Except.error (circuitOpenMessage ctx), none, 0⟩) ∧
    (∀ (ctx : String) (cb : CircuitBreakerState) (now : Int) (r : Except String Unit),
      cb.state = "open" → 30000 ≤ now - cb.lastFailureTime →
        (withCircuitBreaker cb defaultCircuitBreakerOptions now ctx r).invokedUnder
          = some ⟨"half-open", 0, cb.lastFailureTime⟩) := by
  refine ⟨?_, ?_, ?_⟩
  · intro ctx t1 t2 t3 t4 t5
    rfl
  · intro ctx cb now r hst hlt
    rw [withCircuitBreaker]
    simp [hst, defaultCircuitBreakerOptions, hlt]
  · intro ctx cb now r hst hge
    rw [withCircuitBreaker]
    have hnlt : ¬(now - cb.lastFailureTime < defaultCircuitBreakerOptions.recoveryTimeout) := by
      simp [defaultCircuitBreakerOptions]
      omega
    simp only [hst, beq_self_eq_true, if_true, hnlt, if_false]
    cases r <;> simp [recordCBOutcome]

/-- Witness for C4: a breaker opened at time 1000 rejects a call at time
2000 without invoking the operation. -/
theorem claim_breaker_open_witness :
    withCircuitBreaker (⟨"open", 5, 1000⟩ : CircuitBreakerState)
        defaultCircuitBreakerOptions 2000 "streaming" (Except.ok () : Except String Unit)
      = ⟨⟨"open", 5, 1000⟩, Except.error (circuitOpenMessage "streaming"), none, 0⟩ :=
  claim_breaker_open.2.1 "streaming" ⟨"open", 5, 1000⟩ 2000 (Except.ok ()) rfl (by decide)

/-! ## C5: circuit breaker half-open behaviour -/

/-- C5 counterexample: with the default `failureThreshold` of 5, a failing
call in the half-open state does NOT re-open the breaker — the failure
counter (reset to 0 on entering half-open) only reaches 1, so the state
stays `"half-open"`, contradicting "a failing call re-opens the breaker". -/
theorem claim_breaker_halfopen_cex :
    (withCircuitBreaker (⟨"half-open", 0, 0⟩ : CircuitBreakerState)
        defaultCircuitBreakerOptions 1000 "streaming"
        (Except.error "boom" : Except String Unit)).breaker.state = "half-open" := by
  decide

/-- C5 as amended: in the half-open state a successful call transitions
the breaker to closed and resets the counter to zero; a failing call
increments the counter and updates the last-failure timestamp, re-opening
the breaker only when the counter reaches `failureThreshold` (default 5)
and leaving it half-open otherwise. -/
theorem claim_breaker_halfopen_amended (ctx : String) (cb : CircuitBreakerState)
    (now : Int) (hst : cb.state = "half-open") :
    (∀ a : Unit,
      (withCircuitBreaker cb defaultCircuitBreakerOptions now ctx
          (Except.ok a)).breaker = ⟨"closed", 0, cb.lastFailureTime⟩) ∧
    (∀ e : String,
      (withCircuitBreaker cb defaultCircuitBreakerOptions now ctx
          (Except.error e : Except String Unit)).breaker
        = ⟨if cb.failureCount + 1 ≥ 5 then "open" else "half-open",
            cb.failureCount + 1, now⟩) := by
  constructor
  · intro a
    rw [withCircuitBreaker]
    simp [hst, recordCBOutcome]
  · intro e
    rw [withCircuitBreaker]
    simp [hst, recordCBOutcome, defaultCircuitBreakerOptions]

/-- Witness for the amended C5: a single half-open failure leaves the
breaker half-open with count 1. -/
theorem claim_breaker_halfopen_amended_witness :
    (withCircuitBreaker (⟨"half-open", 0, 42⟩ : CircuitBreakerState)
        defaultCircuitBreakerOptions 777 "streaming"
        (Except.error "boom" : Except String Unit)).breaker
      = ⟨if 0 + 1 ≥ 5 then "open" else "half-open", 0 + 1, 777⟩ :=
  (claim_breaker_halfopen_amended "streaming" ⟨"half-open", 0, 42⟩ 777 rfl).2 "boom"

/-! ## C6: resilience composition -/

/-- C6: `withResilience` is the circuit breaker wrapped around the whole
retry loop, so the breaker sees only the final outcome of the retry
sequence: whenever the guarded call is actually attempted, a retry run
that ends in success contributes zero recorded breaker failures and a
retry run that ends exhausted contributes exactly one, regardless of how
many attempts the retry loop made. -/
theorem claim_resilience_composition (cb : CircuitBreakerState) (now : Int)
    (context : String) (op : Nat → Except String Unit)
    (retryConfig : RetryOptions) (cbConfig : CircuitBreakerOptions) :
    withResilience cb now context op retryConfig cbConfig
      = withCircuitBreaker cb cbConfig now context (withRetry op retryConfig).result ∧
    (∀ a : Unit, (withRetry op retryConfig).result = Except.ok a →
      (withResilience cb now context op retryConfig cbConfig).invokedUnder ≠ none →
      (withResilience cb now context op retryConfig cbConfig).recordedFailures = 0) ∧
    (∀ e : String, (withRetry op retryConfig).result = Except.error e →
      (withResilience cb now context op retryConfig cbConfig).invokedUnder ≠ none →
      (withResilience cb now context op retryConfig cbConfig).recordedFailures = 1) := by
  refine ⟨rfl, ?_, ?_⟩
  · intro a ha hinv
    rw [withResilience, withCircuitBreaker] at hinv ⊢
    by_cases hop : cb.state == "open"
    · by_cases ht : now - cb.lastFailureTime < cbConfig.recoveryTimeout
      · simp [hop, ht] at hinv
      · simp [hop, ht, ha, recordCBOutcome]
    · simp [hop, ha, recordCBOutcome]
  · intro e he hinv
    rw [withResilience, withCircuitBreaker] at hinv ⊢
    by_cases hop : cb.state == "open"
    · by_cases ht : now - cb.lastFailureTime < cbConfig.recoveryTimeout
      · simp [hop, ht] at hinv
      · simp [hop, ht, he, recordCBOutcome]
    · simp [hop, he, recordCBOutcome]

/-- Witness for C6: a call that succeeds on its third attempt after two
retryable failures records zero breaker failures. -/
theorem claim_resilience_composition_witness :
    (withResilience freshCircuitBreaker 0 "streaming"
        (fun k => if k < 3 then (Except.error "ETIMEDOUT" : Except String Unit) else Except.ok ())
        defaultRetryOptions defaultCircuitBreakerOptions).recordedFailures = 0 :=
  (claim_resilience_composition freshCircuitBreaker 0 "streaming"
      (fun k => if k < 3 then (Except.error "ETIMEDOUT" : Except String Unit) else Except.ok ())
      defaultRetryOptions defaultCircuitBreakerOptions).2.1 () rfl (by decide)

/-! ## C2: takeover reconciliation -/

theorem isStreamHealthy_iff (σ : SMState) (appId : String) (now : Int) :
    isStreamHealthy σ appId now = true ↔
      ∃ h, healthGet σ appId = some h ∧ now - h.lastActivity < STREAM_TIMEOUT ∧
        now - h.startTime < MAX_STREAM_AGE := by
  unfold isStreamHealthy
  cases hh : healthGet σ appId with
  | none => simp
  | some h => simp

/-- C2: when a session already reads `running` in the store, a local
health record with activity within 5 minutes and age under 10 minutes
makes `ensureSingleStream` stop the prior stream gracefully — publishing
the abort signal, deleting the liveness token and polling up to 60 times
for the token to be absent (a wait that succeeds here since the token was
just deleted) — while a missing or stale health record makes it
force-clean immediately with no abort published; in every case the
liveness token is absent from the resulting state. -/
theorem claim_takeover_reconciliation (σ : SMState) (appId : String) (now : Int)
    (hrun : isStreamRunning σ appId = true) :
    ((∃ h, healthGet σ appId = some h ∧ now - h.lastActivity < STREAM_TIMEOUT ∧
        now - h.startTime < MAX_STREAM_AGE) →
      (ensureSingleStream σ appId now).2
          = [Effect.publishAbort appId, Effect.delToken appId, Effect.waitForStop appId 60] ∧
      waitForStreamToStop ((stopStream σ appId).1) appId 60 = true) ∧
    ((healthGet σ appId = none ∨ ∃ h, healthGet σ appId = some h ∧
        (STREAM_TIMEOUT ≤ now - h.lastActivity ∨ MAX_STREAM_AGE ≤ now - h.startTime)) →
      (ensureSingleStream σ appId now).2 = [Effect.forcedCleanup appId]) ∧
    getStreamState (ensureSingleStream σ appId now).1 appId = none := by
  refine ⟨?_, ?_, ?_⟩
  · intro hex
    have hh : isStreamHealthy σ appId now = true := (isStreamHealthy_iff σ appId now).mpr hex
    constructor
    · simp [ensureSingleStream, hrun, hh, stopStream]
    · simp [waitForStreamToStop, stopStream, getStreamState, clearStreamState, storeGet_storeDel]
  · intro hbad
    have hh : isStreamHealthy σ appId now = false := by
      rcases hbad with hn | ⟨h, hsome, hstale⟩
      · simp [isStreamHealthy, hn]
      · rcases hstale with h1 | h1 <;> simp [isStreamHealthy, hsome] <;> omega
    simp [ensureSingleStream, hrun, hh]
  · have hgen : ∀ τ : SMState,
        getStreamState (healthSet (clearStreamState τ appId) appId ⟨now, now, 0⟩) appId = none := by
      intro τ
      simp [getStreamState, healthSet, clearStreamState, storeGet_storeDel]
    exact hgen _

/-- Witness for C2: a session whose token was set 8 minutes ago with no
heartbeat for 6 minutes is force-cleaned immediately. -/
theorem claim_takeover_reconciliation_witness :
    (ensureSingleStream
        ⟨[("app:app-3:stream-state", "running")], [("app-3", ⟨120000, 0, 0⟩)], ["app-3"]⟩
        "app-3" 480000).2 = [Effect.forcedCleanup "app-3"] :=
  (claim_takeover_reconciliation
      ⟨[("app:app-3:stream-state", "running")], [("app-3", ⟨120000, 0, 0⟩)], ["app-3"]⟩
      "app-3" 480000 (by decide)).2.1
    (Or.inr ⟨⟨120000, 0, 0⟩, rfl, Or.inl (by decide)⟩)

/-! ## C3: producer-failure teardown -/

/-- C3 counterexample: when the producer fails and the memory fallback
succeeds, the entry point records a success with the Health Registry and
no failure at all — refuting the claim that a producer failure registers
a failure with the Health Registry. -/
theorem claim_producer_teardown_cex :
    (processChatMonitoring initMonState 5 0 (streamingOutcome true false)
        (Except.ok ())).performance.failedRequests = 0 ∧
    (processChatMonitoring initMonState 5 0 (streamingOutcome true false)
        (Except.ok ())).performance.successfulRequests = 1 := by
  constructor <;> rfl

/-- C3 as amended: whenever the producer reports an error during
`sendMessageWithStreaming`, the coordinator performs the `error`
lifecycle transition (clearing the liveness token), deletes the local
health record, releases the admission slot, and falls through to the
memory fallback path; no failure is registered with the Health Registry —
when the fallback succeeds the entry point records a success instead. -/
theorem claim_producer_teardown_amended (σ : SMState) (appId : String) (now : Int)
    (m : MonState) (d : ℚ) (t : Int) :
    getStreamState (onErrorHandler σ appId) appId = none ∧
    healthGet (onErrorHandler σ appId) appId = none ∧
    (onErrorHandler σ appId).activeStreams.contains appId = false ∧
    ((reserveStreamSlot (poolRelief σ) appId).1 = true →
      (startSessionStep σ appId now true).fallbackRan = true ∧
      (startSessionStep σ appId now true).state
        = onErrorHandler (ensureSingleStream (reserveStreamSlot (poolRelief σ) appId).2 appId now).1 appId) ∧
    (processChatMonitoring m d t (streamingOutcome true false) (Except.ok ())).performance.failedRequests
      = m.performance.failedRequests := by
  refine ⟨?_, ?_, ?_, ?_, ?_⟩
  · simp [onErrorHandler, releaseStreamSlot, healthDelete, getStreamState, clearStreamState,
      storeGet_storeDel]
  · simp [onErrorHandler, releaseStreamSlot, healthDelete, clearStreamState, healthGet,
      find?_filter_not_key]
  · simp only [onErrorHandler, releaseStreamSlot, healthDelete, clearStreamState]
    rw [← Bool.not_eq_true, List.contains_eq_any_beq]
    simp only [List.any_eq_true, not_exists, not_and]
    intro x hx
    rcases List.mem_filter.mp hx with ⟨_, hp⟩
    simp at hp
    exact fun he => hp (eq_of_beq he).symm
  · intro hres
    constructor
    · simp [startSessionStep, hres]
    · simp [startSessionStep, hres]
  · simp [processChatMonitoring, streamingOutcome, recordSuccess, recordRequestTime,
      updateSuccessRate]

/-- Witness for the amended C3: from the empty state, a producer failure
falls through to the memory fallback. -/
theorem claim_producer_teardown_amended_witness :
    (startSessionStep initSMState "app-1" 0 true).fallbackRan = true :=
  ((claim_producer_teardown_amended initSMState "app-1" 0 initMonState 5 0).2.2.2.1
    (by decide)).1

/-! ## C10: monitoring counter consistency -/

/-- The inductive invariant of the monitoring counters. -/
def monCounterInv (s : MonState) : Prop :=
  s.performance.totalRequests
      = s.performance.successfulRequests + s.performance.failedRequests ∧
    s.performance.successRate
      = (if s.performance.totalRequests = 0 then 100
          else ((s.performance.successfulRequests : ℚ)
            / (s.performance.totalRequests : ℚ)) * 100)

theorem monCounterInv_init : monCounterInv initMonState := by
  constructor <;> rfl

theorem monCounterInv_step (s : MonState) (e : MonEvent)
    (h : monCounterInv s) : monCounterInv (applyMonEvent s e) := by
  rcases h with ⟨h1, _⟩
  cases e with
  | success d =>
      constructor
      · simp [applyMonEvent, recordSuccess, recordRequestTime, updateSuccessRate]
        omega
      · simp [applyMonEvent, recordSuccess, recordRequestTime, updateSuccessRate]
  | failure d now c msg =>
      constructor
      · simp [applyMonEvent, recordFailure, recordMonError, recordRequestTime,
          updateSuccessRate]
        omega
      · simp [applyMonEvent, recordFailure, recordMonError, recordRequestTime,
          updateSuccessRate]

theorem monCounterInv_fold (events : List MonEvent) :
    ∀ s : MonState, monCounterInv s → monCounterInv (events.foldl applyMonEvent s) := by
  induction events with
  | nil => exact fun s h => h
  | cons e es ih => exact fun s h => ih _ (monCounterInv_step s e h)

theorem monCounterInv_run (events : List MonEvent) :
    monCounterInv (runMonEvents initMonState events) :=
  monCounterInv_fold events initMonState monCounterInv_init

/-- C10: after any sequence of `recordSuccess`/`recordFailure` calls from
the initial state, `totalRequests = successfulRequests + failedRequests`,
`successRate = 100 * successfulRequests / totalRequests` whenever
`totalRequests > 0`, and `successRate = 100` when no requests have been
recorded. -/
theorem claim_monitoring_counters (events : List MonEvent) :
    (runMonEvents initMonState events).performance.totalRequests
        = (runMonEvents initMonState events).performance.successfulRequests
          + (runMonEvents initMonState events).performance.failedRequests ∧
    (0 < (runMonEvents initMonState events).performance.totalRequests →
      (runMonEvents initMonState events).performance.successRate
        = 100 * ((runMonEvents initMonState events).performance.successfulRequests : ℚ)
            / ((runMonEvents initMonState events).performance.totalRequests : ℚ)) ∧
    ((runMonEvents initMonState events).performance.totalRequests = 0 →
      (runMonEvents initMonState events).performance.successRate = 100) := by
  rcases monCounterInv_run events with ⟨h1, h2⟩
  refine ⟨h1, ?_, ?_⟩
  · intro hpos
    rw [h2, if_neg (by omega)]
    ring
  · intro hz
    rw [h2, if_pos hz]

/-- Witness for C10 after one success and one failure. -/
theorem claim_monitoring_counters_witness :
    (runMonEvents initMonState [MonEvent.success 5, MonEvent.failure 3 0 "c" "e"]).performance.successRate
      = 100 * ((runMonEvents initMonState
            [MonEvent.success 5, MonEvent.failure 3 0 "c" "e"]).performance.successfulRequests : ℚ)
        / ((runMonEvents initMonState
            [MonEvent.success 5, MonEvent.failure 3 0 "c" "e"]).performance.totalRequests : ℚ) :=
  (claim_monitoring_counters [MonEvent.success 5, MonEvent.failure 3 0 "c" "e"]).2.1
    (by decide)

/-! ## C1: admission invariant -/

theorem forceCleanup_active (σ : SMState) (a : String) :
    (forceCleanupStream σ a).activeStreams
      = List.filter (fun x => !(x == a)) σ.activeStreams := rfl

theorem ensureSingle_active (σ : SMState) (a : String) (now : Int) :
    (ensureSingleStream σ a now).1.activeStreams = σ.activeStreams ∨
    (ensureSingleStream σ a now).1.activeStreams
      = List.filter (fun x => !(x == a)) σ.activeStreams := by
  rw [ensureSingleStream]
  by_cases h1 : isStreamRunning σ a
  · by_cases h2 : isStreamHealthy σ a now
    · left
      simp [h1, h2, stopStream, clearStreamState, healthSet]
    · right
      simp [h1, h2, clearStreamState, healthSet, forceCleanupStream, healthDelete,
        releaseStreamSlot]
  · left
    simp [h1, clearStreamState, healthSet]

/-- The pool invariant: bounded by capacity and duplicate-free. -/
def poolInv (σ : SMState) : Prop :=
  σ.activeStreams.length ≤ MAX_CONCURRENT_STREAMS ∧ σ.activeStreams.Nodup

theorem poolInv_filter (σ : SMState) (p : String → Bool) (h : poolInv σ) :
    poolInv { σ with activeStreams := σ.activeStreams.filter p } := by
  refine ⟨Nat.le_trans (List.length_filter_le p σ.activeStreams) h.1, h.2.filter p⟩

theorem foldl_forceCleanup_active_le (l : List String) :
    ∀ σ : SMState, (l.foldl forceCleanupStream σ).activeStreams.length
      ≤ σ.activeStreams.length := by
  induction l with
  | nil => intro σ; exact Nat.le_refl _
  | cons a as ih =>
      intro σ
      refine Nat.le_trans (ih (forceCleanupStream σ a)) ?_
      rw [forceCleanup_active]
      exact List.length_filter_le _ _

theorem foldl_forceCleanup_nodup (l : List String) :
    ∀ σ : SMState, σ.activeStreams.Nodup
      → (l.foldl forceCleanupStream σ).activeStreams.Nodup := by
  induction l with
  | nil => intro σ h; exact h
  | cons a as ih =>
      intro σ h
      refine ih (forceCleanupStream σ a) ?_
      rw [forceCleanup_active]
      exact h.filter _

theorem poolRelief_poolInv (σ : SMState) (h : poolInv σ) : poolInv (poolRelief σ) := by
  rw [poolRelief]
  by_cases hc : canStartNewStream σ
  · simpa [hc] using h
  · simp only [hc, if_false]
    exact ⟨Nat.le_trans (foldl_forceCleanup_active_le _ σ) h.1,
      foldl_forceCleanup_nodup _ σ h.2⟩

theorem activeStreamsAdd_length (l : List String) (a : String) :
    (activeStreamsAdd l a).length
      = if l.contains a then l.length else l.length + 1 := by
  rw [activeStreamsAdd]
  cases hm : l.contains a <;> simp [hm]

theorem activeStreamsAdd_nodup (l : List String) (a : String) (h : l.Nodup) :
    (activeStreamsAdd l a).Nodup := by
  rw [activeStreamsAdd]
  cases hm : l.contains a
  · have hnm : a ∉ l := by simpa using hm
    simp [List.nodup_append, h, hnm]
  · simpa using h

theorem reserve_poolInv (σ : SMState) (a : String) (h : poolInv σ) :
    poolInv (reserveStreamSlot σ a).2 := by
  rw [reserveStreamSlot]
  by_cases hc : canStartNewStream σ
  · have hlen : σ.activeStreams.length < MAX_CONCURRENT_STREAMS := by
      simpa [canStartNewStream] using hc
    simp only [hc, if_true]
    refine ⟨?_, activeStreamsAdd_nodup _ _ h.2⟩
    show (activeStreamsAdd σ.activeStreams a).length ≤ MAX_CONCURRENT_STREAMS
    rw [activeStreamsAdd_length]
    cases hm : σ.activeStreams.contains a <;> simp <;> omega
  · simpa [hc] using h

theorem ensureSingle_poolInv (σ : SMState) (a : String) (now : Int) (h : poolInv σ) :
    poolInv (ensureSingleStream σ a now).1 := by
  rcases ensureSingle_active σ a now with he | he
  · exact ⟨he ▸ h.1, he ▸ h.2⟩
  · refine ⟨?_, ?_⟩
    · rw [he]; exact Nat.le_trans (List.length_filter_le _ _) h.1
    · rw [he]; exact h.2.filter _

theorem startSession_poolInv (σ : SMState) (a : String) (now : Int) (pf : Bool)
    (h : poolInv σ) : poolInv (startSessionStep σ a now pf).state := by
  rw [startSessionStep]
  have h1 : poolInv (poolRelief σ) := poolRelief_poolInv σ h
  have h2 : poolInv (reserveStreamSlot (poolRelief σ) a).2 :=
    reserve_poolInv (poolRelief σ) a h1
  by_cases hr : (reserveStreamSlot (poolRelief σ) a).1
  · have h3 : poolInv (ensureSingleStream (reserveStreamSlot (poolRelief σ) a).2 a now).1 :=
      ensureSingle_poolInv _ a now h2
    cases pf with
    | true =>
        simp only [hr, if_true]
        exact ⟨Nat.le_trans (List.length_filter_le _ _) h3.1, h3.2.filter _⟩
    | false =>
        simp only [hr, if_true, Bool.false_eq_true, if_false]
        exact h3
  · simp only [hr, if_false]
    exact h2

theorem applySMOp_poolInv (σ : SMState) (op : SMOp) (h : poolInv σ) :
    poolInv (applySMOp σ op) := by
  cases op with
  | start a now pf => exact startSession_poolInv σ a now pf h
  | finish a => exact ⟨Nat.le_trans (List.length_filter_le _ _) h.1, h.2.filter _⟩
  | cleanup a => exact ⟨Nat.le_trans (List.length_filter_le _ _) h.1, h.2.filter _⟩
  | stop a => exact h
  | clear a => exact h

theorem runSMOps_poolInv (ops : List SMOp) :
    ∀ σ : SMState, poolInv σ → poolInv (runSMOps σ ops) := by
  induction ops with
  | nil => exact fun σ h => h
  | cons o os ih => exact fun σ h => ih _ (applySMOp_poolInv σ o h)

theorem poolInv_init : poolInv initSMState := ⟨by decide, List.nodup_nil⟩

theorem foldl_forceCleanup_active (l : List String) :
    ∀ σ : SMState, (l.foldl forceCleanupStream σ).activeStreams
      = σ.activeStreams.filter (fun x => !(l.contains x)) := by
  induction l with
  | nil =>
      intro σ
      simp [List.filter_eq_self]
  | cons a as ih =>
      intro σ
      rw [List.foldl_cons, ih, forceCleanup_active, List.filter_filter]
      apply List.filter_congr
      intro x _
      rw [List.contains_cons]
      cases hxa : x == a <;> cases hm : as.contains x <;> rfl

theorem filter_not_contains_take_two (l : List String) (hnd : l.Nodup) :
    l.filter (fun x => !((l.take 2).contains x)) = l.drop 2 := by
  match l with
  | [] => rfl
  | [a] =>
      show List.filter (fun x => !(([a] : List String).contains x)) [a] = []
      simp
  | a :: b :: rest =>
      rcases List.nodup_cons.mp hnd with ⟨ha, hnd2⟩
      rcases List.nodup_cons.mp hnd2 with ⟨hb, _⟩
      show (a :: b :: rest).filter (fun x => !(([a, b] : List String).contains x)) = rest
      rw [List.filter_cons, List.filter_cons]
      have hpa : (!(([a, b] : List String).contains a)) = false := by simp
      have hpb : (!(([a, b] : List String).contains b)) = false := by simp
      simp only [hpa, hpb, Bool.false_eq_true, if_false]
      apply List.filter_eq_self.mpr
      intro x hx
      have hxa : x ≠ a := fun he => ha (he ▸ List.mem_cons_of_mem b hx)
      have hxb : x ≠ b := fun he => hb (he ▸ hx)
      simp [List.contains_cons, hxa, hxb]

theorem poolRelief_at_capacity (σ : SMState) (hnd : σ.activeStreams.Nodup)
    (hlen : σ.activeStreams.length = MAX_CONCURRENT_STREAMS) :
    (poolRelief σ).activeStreams = σ.activeStreams.drop 2 := by
  rw [poolRelief]
  have hc : canStartNewStream σ = false := by
    simp [canStartNewStream, hlen]
  simp only [hc, Bool.false_eq_true, if_false]
  rw [foldl_forceCleanup_active]
  exact filter_not_contains_take_two σ.activeStreams hnd

/-- C1: over every sequence of start/finish/cleanup/stop/clear operations
from the initial state the active-session pool stays within the capacity
of 10 (and duplicate-free); a `sendMessageWithStreaming` call that finds
the pool exactly at capacity force-cleans the two oldest (earliest
admitted) sessions before reserving, after which the producer is invoked;
and whenever slot reservation fails even after relief, the call fails
with the capacity-exceeded error without invoking the producer. -/
theorem claim_admission_invariant :
    (∀ ops : List SMOp,
      (runSMOps initSMState ops).activeStreams.length ≤ MAX_CONCURRENT_STREAMS ∧
      (runSMOps initSMState ops).activeStreams.Nodup) ∧
    (∀ (σ : SMState) (appId : String) (now : Int) (pf : Bool),
      σ.activeStreams.Nodup → σ.activeStreams.length = MAX_CONCURRENT_STREAMS →
      (poolRelief σ).activeStreams = σ.activeStreams.drop 2 ∧
      (startSessionStep σ appId now pf).producerInvoked = true ∧
      (startSessionStep σ appId now pf).error = none) ∧
    (∀ (σ : SMState) (appId : String) (now : Int) (pf : Bool),
      (reserveStreamSlot (poolRelief σ) appId).1 = false →
      (startSessionStep σ appId now pf).error = some capacityError ∧
      (startSessionStep σ appId now pf).producerInvoked = false) := by
  refine ⟨?_, ?_, ?_⟩
  · intro ops
    exact runSMOps_poolInv ops initSMState poolInv_init
  · intro σ appId now pf hnd hlen
    have hrel := poolRelief_at_capacity σ hnd hlen
    have hlen2 : (poolRelief σ).activeStreams.length = MAX_CONCURRENT_STREAMS - 2 := by
      rw [hrel, List.length_drop, hlen]
    have hcs : canStartNewStream (poolRelief σ) = true := by
      simp [canStartNewStream, hlen2, MAX_CONCURRENT_STREAMS]
    have hres : (reserveStreamSlot (poolRelief σ) appId).1 = true := by
      rw [reserveStreamSlot, hcs]
      rfl
    refine ⟨hrel, ?_, ?_⟩ <;>
      · rw [startSessionStep]
        cases pf <;> simp [hres]
  · intro σ appId now pf hres
    rw [startSessionStep]
    constructor <;> simp [hres]

/-- Witness for C1: at a pool of exactly ten distinct sessions the two
oldest are evicted and the new session's producer runs. -/
theorem claim_admission_invariant_witness :
    (poolRelief ⟨[], [], ["s0", "s1", "s2", "s3", "s4", "s5", "s6", "s7", "s8", "s9"]⟩).activeStreams
        = ["s2", "s3", "s4", "s5", "s6", "s7", "s8", "s9"] ∧
    (startSessionStep ⟨[], [], ["s0", "s1", "s2", "s3", "s4", "s5", "s6", "s7", "s8", "s9"]⟩
        "new-app" 0 false).producerInvoked = true ∧
    (startSessionStep ⟨[], [], ["s0", "s1", "s2", "s3", "s4", "s5", "s6", "s7", "s8", "s9"]⟩
        "new-app" 0 false).error = none :=
  claim_admission_invariant.2.1
    ⟨[], [], ["s0", "s1", "s2", "s3", "s4", "s5", "s6", "s7", "s8", "s9"]⟩
    "new-app" 0 false (by decide) (by decide)
